import Mathlib

/-!
Shallow embedding of the core of the crypto-analysis bot (src/main.py):
the retrying fetch client (make_api_call), the lazily-populated
trading-pair catalog (get_exchange_info / normalize_symbol), the
coin-catalog resolver (get_coin_id_and_name) and the indicator pipeline
(analyze_technical).  Machine floats are modelled as exact rationals;
pandas NaN / failed numeric coercion is modelled as Option.none.
-/

/-! ## Fetch client (src/main.py lines 46-66, make_api_call) -/

/-- What the server returns to one HTTP GET attempt: an HTTP response with a
status code and an (already parsed) body, or a transient error
(aiohttp.ClientError other than a response error, or asyncio.TimeoutError). -/
inductive AttemptResponse
  | status (code : Nat) (body : Nat)
  | netError
  deriving DecidableEq

/-- Outcome of make_api_call.  httpError models the aiohttp.ClientResponseError
raised by response.raise_for_status() propagating out of the function;
netErrorRaised models a propagated transient error; maxRetriesExceeded models
the final raise Exception("Max retries exceeded"). -/
inductive FetchResult
  | ok (body : Nat)
  | httpError (code : Nat)
  | netErrorRaised
  | maxRetriesExceeded
  deriving DecidableEq

/-- The retry loop of make_api_call.  fuel is the number of loop iterations
still allowed; the attempt index is max_retries - fuel.  One iteration:
status 429 sleeps and continues; any other status ≥ 400 makes
raise_for_status throw aiohttp.ClientResponseError, which IS a subclass of
aiohttp.ClientError and is therefore caught by the except clause: it
re-raises only when attempt == max_retries - 1 (fuel = 1), otherwise sleeps
1s and continues; a status < 400 (other than 429) returns the parsed body.
A transient network/timeout error is handled by the same except clause.
The second component counts HTTP requests actually issued. -/
def api_loop (responses : Nat → AttemptResponse) (max_retries : Nat) :
    Nat → FetchResult × Nat
  | 0 => (FetchResult.maxRetriesExceeded, max_retries)
  | fuel + 1 =>
    match responses (max_retries - (fuel + 1)) with
    | AttemptResponse.status code body =>
      if code = 429 then api_loop responses max_retries fuel
      else if 400 ≤ code then
        if fuel = 0 then (FetchResult.httpError code, max_retries - (fuel + 1) + 1)
        else api_loop responses max_retries fuel
      else (FetchResult.ok body, max_retries - (fuel + 1) + 1)
    | AttemptResponse.netError =>
      if fuel = 0 then (FetchResult.netErrorRaised, max_retries - (fuel + 1) + 1)
      else api_loop responses max_retries fuel

/-- make_api_call(url, params, max_retries=3), indexed by the sequence of
responses the upstream server would give to the successive requests.
Returns the outcome together with the number of requests issued. -/
def make_api_call (responses : Nat → AttemptResponse) (max_retries : Nat := 3) :
    FetchResult × Nat :=
  api_loop responses max_retries max_retries

/-- Server behaviour used to exhibit the retry on a non-2xx/429 status:
first request answered 500, every later one answered 200 with body 7. -/
def resp500then200 : Nat → AttemptResponse := fun n =>
  if n = 0 then AttemptResponse.status 500 0 else AttemptResponse.status 200 7

/-- Server behaviour answering 429 to the first three requests and 200 with
body 99 to any request after those. -/
def r429x3 : Nat → AttemptResponse := fun n =>
  if n < 3 then AttemptResponse.status 429 0 else AttemptResponse.status 200 99

/-! ## Catalog cache and exchange-pair resolution
(src/main.py lines 68-93, get_exchange_info / normalize_symbol) -/

/-- get_exchange_info (lines 68-75): one fetch against the exchangeInfo
endpoint; on success the parsed set of symbol strings, on any exception an
empty set.  The fetch outcome is abstracted as Option: some = parsed set,
none = make_api_call raised.  The Python set is modelled as a list, the only
operation used on it being membership. -/
def get_exchange_info (fetchResult : Option (List String)) : List String :=
  match fetchResult with
  | some pairs => pairs
  | none => []

/-- The memoization state carried by the function attribute
normalize_symbol.trading_pairs: none = attribute not yet set (hasattr is
false), some tp = attribute set to the set tp. -/
structure NormState where
  trading_pairs : Option (List String)
  deriving DecidableEq

/-- ASCII uppercasing, modelling Python str.upper() on the symbol tokens the
bot handles. -/
def pyUpper (s : String) : String := s.map Char.toUpper

/-- Python s.replace(c, ""): delete every occurrence of the character. -/
def removeChar (c : Char) (s : String) : String :=
  String.mk (s.data.filter (fun x => x != c))

/-- Line 79: symbol.upper().replace('/', '').replace('-', ''). -/
def normSym (symbol : String) : String :=
  removeChar '-' (removeChar '/' (pyUpper symbol))

/-- The set of trading pairs normalize_symbol consults: the memoized
attribute if present (lines 86-87: hasattr check), otherwise the result of
the get_exchange_info fetch performed on this call. -/
def effectiveCatalog (st : NormState) (fr : Option (List String)) : List String :=
  match st.trading_pairs with
  | some tp => tp
  | none => get_exchange_info fr

/-- Number of catalog fetches performed by one normalize_symbol call:
0 when the attribute is already set, 1 when this call populates it. -/
def fetchCount (st : NormState) : Nat :=
  match st.trading_pairs with
  | some _ => 0
  | none => 1

/-- normalize_symbol (lines 77-93) with the function-attribute cache made
explicit: given the pre-call cache state and the would-be fetch result,
returns (resolved pair or None, post-call cache state, fetches issued).
Lines 89-93: test {sym}USDT, then {sym}BTC, else None. -/
def normalize_symbol (symbol : String) (st : NormState) (fr : Option (List String)) :
    Option String × NormState × Nat :=
  if normSym symbol ++ "USDT" ∈ effectiveCatalog st fr then
    (some (normSym symbol ++ "USDT"), NormState.mk (some (effectiveCatalog st fr)), fetchCount st)
  else if normSym symbol ++ "BTC" ∈ effectiveCatalog st fr then
    (some (normSym symbol ++ "BTC"), NormState.mk (some (effectiveCatalog st fr)), fetchCount st)
  else (none, NormState.mk (some (effectiveCatalog st fr)), fetchCount st)

/-! ## Coin-catalog resolution (src/main.py lines 95-127, get_coin_id_and_name) -/

/-- One entry of the CoinGecko search payload: id, short symbol code, name. -/
structure Coin where
  id : String
  symbol : String
  name : String
  deriving DecidableEq

/-- The three-way result of get_coin_id_and_name: (id, SYMBOL, name) on a
successful resolution, or (None, suggestion-list, None) — the empty list
standing both for "no candidates" and for a failed search call, exactly as
in the source. -/
inductive ResolveResult
  | found (id symbol name : String)
  | notFoundSuggestions (suggestions : List Coin)
  deriving DecidableEq

/-- get_coin_id_and_name (lines 95-127).  directLookup abstracts the
coins/{id} endpoint (lines 97-103): some c = valid coin id, none = the
lookup raised.  searchCoins abstracts the search endpoint (lines 105-127):
none = the search call raised (caught, returning (None, [], None)),
some coins = the parsed candidate list in the API's relevance order. -/
def get_coin_id_and_name (directLookup : Option Coin) (searchCoins : Option (List Coin))
    (input_str : String) : ResolveResult :=
  match directLookup with
  | some c => ResolveResult.found c.id c.symbol.toUpper c.name
  | none =>
    match searchCoins with
    | none => ResolveResult.notFoundSuggestions []
    | some coins =>
      if coins.isEmpty then ResolveResult.notFoundSuggestions []
      else
        match coins.filter (fun c => c.symbol.toUpper == input_str.toUpper) with
        | c :: _ => ResolveResult.found c.id c.symbol.toUpper c.name
        | [] => ResolveResult.notFoundSuggestions
            ((coins.take 5).map (fun c => Coin.mk c.id c.symbol.toUpper c.name))

/-! ## Indicator engine (src/main.py lines 257-313, analyze_technical)
Numeric values are exact rationals; a field that failed pandas numeric
coercion (NaN after pd.to_numeric(errors='coerce')) is Option.none. -/

/-- One kline row as assembled by get_klines (lines 146-160) and ingested by
analyze_technical: the timestamp index plus the five columns coerced by
pd.to_numeric on line 275.  (The remaining kline columns — close_time,
quote volume, trade count, taker volumes — are untouched by every claim
and are omitted.)  The Python name of the first price column, open, is a
Lean keyword and is rendered open_val. -/
structure Row where
  timestamp : Int
  open_val : Option ℚ
  high : Option ℚ
  low : Option ℚ
  close : Option ℚ
  volume : Option ℚ
  deriving DecidableEq

/-- A row survives df.dropna() (line 276) iff all five coerced numeric
fields are present. -/
def validRow (r : Row) : Bool :=
  r.open_val.isSome && r.high.isSome && r.low.isSome && r.close.isSome && r.volume.isSome

/-- Lines 273-276: coerce the numeric columns and drop the rows with a NaN.
No sorting and no duplicate-timestamp removal happens anywhere in the
pipeline; the row order of the upstream payload is kept. -/
def cleanRows (rows : List Row) : List Row := rows.filter validRow

/-- The closing-price series df["close"] of the cleaned frame.  Every row
passed validRow, so the default of getD is never exercised. -/
def closesOf (df : List Row) : List ℚ := df.map (fun r => r.close.getD 0)

/-- The volume series df["volume"] of the cleaned frame. -/
def volumesOf (df : List Row) : List ℚ := df.map (fun r => r.volume.getD 0)

/-- The snapshot dictionary built on lines 302-310. -/
structure Snapshot where
  price : ℚ
  rsi : ℚ
  ema20 : ℚ
  ema50 : ℚ
  macd : ℚ
  volume_change_1h : ℚ
  volume_change_24h : ℚ
  deriving DecidableEq

/-- pandas ewm(..., adjust=False).mean() recursion, final value only:
y0 = x0 and yt = (1 - alpha) * y(t-1) + alpha * xt, folded over the tail. -/
def ewmaLast (alpha : ℚ) : ℚ → List ℚ → ℚ
  | acc, [] => acc
  | acc, x :: rest => ewmaLast alpha ((1 - alpha) * acc + alpha * x) rest

/-- EMAIndicator(close, window).ema_indicator().iloc[-1] (lines 285-286):
ewm(span=window, min_periods=window, adjust=False).mean(); the last value is
NaN (none) exactly when fewer than window samples exist. -/
def ema_last (window : Nat) (closes : List ℚ) : Option ℚ :=
  if closes.length < window then none
  else
    match closes with
    | [] => none
    | x :: rest => some (ewmaLast (2 / ((window : ℚ) + 1)) x rest)

/-- MACD(close).macd().iloc[-1] (line 287): 12-period EMA minus 26-period
EMA of the closing price, NaN (none) when either is undefined. -/
def macd_last (closes : List ℚ) : Option ℚ :=
  match ema_last 12 closes, ema_last 26 closes with
  | some f, some s => some (f - s)
  | _, _ => none

/-- close.diff(1) without its leading NaN: consecutive differences. -/
def diffs : List ℚ → List ℚ
  | x :: y :: rest => (y - x) :: diffs (y :: rest)
  | _ => []

/-- RSIIndicator(close).rsi().iloc[-1] (line 284): Wilder smoothing
(ewm with alpha = 1/window, adjust=False) of the gains and of the losses of
the diffed series, rs = avg gain / avg loss, rsi = 100 - 100/(1+rs); NaN
(none) when fewer than window diffs exist.  Division is the totalized
rational division (x/0 = 0), which differs from IEEE semantics only when
avg loss is 0; no claim depends on the RSI value. -/
def rsi_last (window : Nat) (closes : List ℚ) : Option ℚ :=
  if (diffs closes).length < window then none
  else
    match diffs closes with
    | [] => none
    | d :: rest =>
      some (100 - 100 / (1 +
        ewmaLast (1 / (window : ℚ)) (max d 0) (rest.map (fun x => max x 0)) /
        ewmaLast (1 / (window : ℚ)) (max (-d) 0) (rest.map (fun x => max (-x) 0))))

/-- Round half to even at a rational, modelling Python's round() convention
on the exact value. -/
def roundHalfEven (x : ℚ) : ℤ :=
  if x - (⌊x⌋ : ℚ) < 1 / 2 then ⌊x⌋
  else if (1 : ℚ) / 2 < x - (⌊x⌋ : ℚ) then ⌊x⌋ + 1
  else if ⌊x⌋ % 2 = 0 then ⌊x⌋ else ⌊x⌋ + 1

/-- Python round(x, ndigits). -/
def py_round (x : ℚ) (ndigits : Nat) : ℚ :=
  ((roundHalfEven (x * 10 ^ ndigits) : ℤ) : ℚ) / 10 ^ ndigits

/-- df["close"].iloc[-1] (line 288). -/
def price_of (df : List Row) : ℚ :=
  (closesOf df).getD ((closesOf df).length - 1) 0

/-- Lines 291-293: percentage change between the last two volumes, guarded
to 0 unless the previous volume is positive. -/
def volume_change_1h_of (df : List Row) : ℚ :=
  if (volumesOf df).getD ((volumesOf df).length - 2) 0 > 0 then
    ((volumesOf df).getD ((volumesOf df).length - 1) 0 -
        (volumesOf df).getD ((volumesOf df).length - 2) 0) /
      (volumesOf df).getD ((volumesOf df).length - 2) 0 * 100
  else 0

/-- Lines 296-300: percentage change against the volume 24 samples earlier
(iloc[-25]) when more than 24 rows exist, with the same positivity guard. -/
def volume_change_24h_of (df : List Row) : ℚ :=
  if 24 < df.length then
    if (volumesOf df).getD ((volumesOf df).length - 25) 0 > 0 then
      ((volumesOf df).getD ((volumesOf df).length - 1) 0 -
          (volumesOf df).getD ((volumesOf df).length - 25) 0) /
        (volumesOf df).getD ((volumesOf df).length - 25) 0 * 100
    else 0
  else 0

/-- The snapshot dictionary of lines 302-310: price raw; rsi rounded to 2
digits with neutral fallback 50 when NaN; EMAs rounded to 2 digits with
fallback to the raw price; MACD rounded to 4 digits with fallback 0;
volume percentages rounded to 2 digits. -/
def mkSnapshot (df : List Row) : Snapshot where
  price := price_of df
  rsi :=
    match rsi_last 14 (closesOf df) with
    | some v => py_round v 2
    | none => 50
  ema20 :=
    match ema_last 20 (closesOf df) with
    | some v => py_round v 2
    | none => price_of df
  ema50 :=
    match ema_last 50 (closesOf df) with
    | some v => py_round v 2
    | none => price_of df
  macd :=
    match macd_last (closesOf df) with
    | some v => py_round v 4
    | none => 0
  volume_change_1h := py_round (volume_change_1h_of df) 2
  volume_change_24h := py_round (volume_change_24h_of df) 2

/-- analyze_technical (lines 257-313) downstream of get_klines: an empty
kline list (line 259) and fewer than 50 surviving rows (line 278) both
return None — None is the InsufficientData / no-data outcome; otherwise the
snapshot is built from the cleaned frame. -/
def analyze_technical (klines : List Row) : Option Snapshot :=
  if klines.isEmpty then none
  else if (cleanRows klines).length < 50 then none
  else some (mkSnapshot (cleanRows klines))

/-! ## Concrete sample data used by counterexamples and witnesses -/

/-- Two valid rows with increasing timestamps. -/
def rowsW : List Row :=
  [Row.mk 0 (some 1) (some 1) (some 1) (some 1) (some 1),
   Row.mk 1 (some 1) (some 1) (some 1) (some 1) (some 1)]

/-- 50 valid one-hour rows with constant close 1.111 and constant volume 1. -/
def sample50 : List Row :=
  (List.range 50).map (fun i =>
    Row.mk (i : Int) (some 1) (some 1) (some 1) (some (1111 / 1000)) (some 1))

/-- The snapshot analyze_technical produces on sample50. -/
def snap50 : Snapshot :=
  Snapshot.mk (1111 / 1000) 0 (111 / 100) (111 / 100) 0 0 0

/-- 50 valid rows in which the rows at positions 0 and 1 share timestamp 1. -/
def dupRows50 : List Row :=
  (List.range 50).map (fun i =>
    Row.mk (if i = 0 then 1 else (i : Int)) (some 1) (some 1) (some 1) (some 1) (some 1))

/-- 50 valid rows, constant close 1, whose second-to-last volume is 0. -/
def sampleV0 : List Row :=
  (List.range 50).map (fun i =>
    Row.mk (i : Int) (some 1) (some 1) (some 1) (some 1)
      (some (if i = 48 then 0 else 1)))

/-- The snapshot analyze_technical produces on sampleV0. -/
def snapV0 : Snapshot := Snapshot.mk 1 0 1 1 0 0 0

/-- Seven search candidates for the query "bit", none of whose symbol codes
equals BIT. -/
def coins7 : List Coin :=
  [Coin.mk "bitcoin" "BTC" "Bitcoin",
   Coin.mk "bitcoin-cash" "BCH" "Bitcoin Cash",
   Coin.mk "bitget-token" "BGB" "Bitget Token",
   Coin.mk "bittensor" "TAO" "Bittensor",
   Coin.mk "bitdao" "BITD" "BitDAO",
   Coin.mk "bitrise" "BRISE" "Bitrise",
   Coin.mk "biswap" "BSW" "Biswap"]

/-- Catalog holding both the USDT and the BTC pair for BTC. -/
def catalogW : List String := ["BTCUSDT", "BTCBTC"]

/-! ## Helper lemmas -/

/-- The retry loop issues at most max_retries requests. -/
lemma api_loop_attempts_le (r : Nat → AttemptResponse) (mr : Nat) :
    ∀ fuel, fuel ≤ mr → (api_loop r mr fuel).2 ≤ mr := by
  intro fuel
  induction fuel with
  | zero => intro _; simp [api_loop]
  | succ n ih =>
    intro hle
    rw [api_loop]
    cases r (mr - (n + 1)) with
    | status code body =>
      simp only
      split_ifs
      · exact ih (by omega)
      · simp; omega
      · exact ih (by omega)
      · simp; omega
    | netError =>
      simp only
      split_ifs
      · simp; omega
      · exact ih (by omega)

/-! ## C1 -/

/-- C1 counterexample.  The claim says a fetch receiving a non-2xx/429
status (here 500 on the first request) fails immediately with an HTTP-status
error and performs no further attempts.  In the code,
response.raise_for_status() raises aiohttp.ClientResponseError, a subclass
of aiohttp.ClientError, so the except clause catches it and retries: with a
500 then a 200 the call performs a second attempt and succeeds. -/
theorem C1_counterexample :
    make_api_call resp500then200 3 = (FetchResult.ok 7, 2) ∧
    make_api_call resp500then200 3 ≠ (FetchResult.httpError 500, 1) := by
  constructor
  · decide
  · decide

/-- C1 amended: a non-2xx/429 HTTP status (≥ 400) raised by
raise_for_status is caught like a transient error and the call retries;
the HTTP-status error propagates only when such a status arrives on the
final (3rd) attempt.  First conjunct: 500-then-200 succeeds on the second
attempt; second conjunct: a bad status on every attempt fails with the
HTTP-status error after exactly 3 attempts. -/
theorem C1_amended_retry_on_http_error (code b : Nat) (r : Nat → AttemptResponse)
    (hc : 400 ≤ code) (hne : code ≠ 429)
    (h0 : r 0 = AttemptResponse.status code 0) (h1 : r 1 = AttemptResponse.status 200 b) :
    make_api_call r 3 = (FetchResult.ok b, 2) ∧
    ∀ r2 : Nat → AttemptResponse, (∀ i, r2 i = AttemptResponse.status code 0) →
      make_api_call r2 3 = (FetchResult.httpError code, 3) := by
  constructor
  · show api_loop r 3 3 = _
    rw [show (3 : Nat) = 2 + 1 from rfl, api_loop]
    norm_num [h0, hne, hc]
    rw [show (2 : Nat) = 1 + 1 from rfl, api_loop]
    norm_num [h1]
  · intro r2 h
    show api_loop r2 3 3 = _
    rw [show (3 : Nat) = 2 + 1 from rfl, api_loop]
    norm_num [h, hne, hc]
    rw [show (2 : Nat) = 1 + 1 from rfl, api_loop]
    norm_num [h, hne, hc]
    rw [show (1 : Nat) = 0 + 1 from rfl, api_loop]
    norm_num [h, hne, hc]

/-- C1 amended witness at the concrete server behaviour resp500then200. -/
theorem C1_amended_witness :
    make_api_call resp500then200 3 = (FetchResult.ok 7, 2) :=
  (C1_amended_retry_on_http_error 500 7 resp500then200 (by decide) (by decide)
    (by decide) (by decide)).1

/-! ## C2 -/

/-- C2: the fetch client issues at most max_retries = 3 requests for any
server behaviour (the loop is a total function, so every call terminates),
and three consecutive 429 responses exhaust the budget: the call ends in
the Max-retries-exceeded failure after exactly 3 requests, regardless of
what a 4th request would have returned. -/
theorem C2_attempt_budget (r : Nat → AttemptResponse) (b0 b1 b2 : Nat)
    (h0 : r 0 = AttemptResponse.status 429 b0)
    (h1 : r 1 = AttemptResponse.status 429 b1)
    (h2 : r 2 = AttemptResponse.status 429 b2) :
    make_api_call r 3 = (FetchResult.maxRetriesExceeded, 3) ∧
    ∀ r2 : Nat → AttemptResponse, (make_api_call r2 3).2 ≤ 3 := by
  constructor
  · show api_loop r 3 3 = _
    rw [show (3 : Nat) = 2 + 1 from rfl, api_loop]
    norm_num [h0]
    rw [show (2 : Nat) = 1 + 1 from rfl, api_loop]
    norm_num [h1]
    rw [show (1 : Nat) = 0 + 1 from rfl, api_loop]
    norm_num [h2]
    rw [api_loop]
  · intro r2
    exact api_loop_attempts_le r2 3 3 (le_refl 3)

/-- C2 witness: the server r429x3 answers 429 three times and would answer
200 to a 4th request, yet the call fails with Max retries exceeded after
exactly 3 requests. -/
theorem C2_witness :
    make_api_call r429x3 3 = (FetchResult.maxRetriesExceeded, 3) :=
  (C2_attempt_budget r429x3 0 0 0 (by decide) (by decide) (by decide)).1

/-! ## Helper lemmas for the catalog cache -/

/-- After any normalize_symbol call the function attribute holds the
effective catalog of that call. -/
lemma normalize_symbol_state (s : String) (st : NormState) (fr : Option (List String)) :
    (normalize_symbol s st fr).2.1 = NormState.mk (some (effectiveCatalog st fr)) := by
  unfold normalize_symbol
  split_ifs <;> rfl

/-- A call that finds the attribute set performs no fetch. -/
lemma normalize_symbol_fetches_cached (s : String) (tp : List String)
    (fr : Option (List String)) :
    (normalize_symbol s (NormState.mk (some tp)) fr).2.2 = 0 := by
  unfold normalize_symbol
  split_ifs <;> rfl

/-- Any single call performs at most one fetch. -/
lemma normalize_symbol_fetches_le (s : String) (st : NormState)
    (fr : Option (List String)) :
    (normalize_symbol s st fr).2.2 ≤ 1 := by
  unfold normalize_symbol
  cases h : st.trading_pairs <;> split_ifs <;> simp [fetchCount, h]

/-! ## C3 -/

/-- C3: when fewer than 50 rows survive the numeric coercion and dropna
(line 278), analyze_technical returns None — the insufficient-data outcome —
and never a snapshot. -/
theorem C3_insufficient_data (xs : List Row) (h : (cleanRows xs).length < 50) :
    analyze_technical xs = none := by
  unfold analyze_technical
  split_ifs with h1
  · rfl
  · rfl

/-- C3 witness: two valid rows survive, so the outcome is None. -/
theorem C3_witness :
    (cleanRows rowsW).length < 50 ∧ analyze_technical rowsW = none :=
  ⟨by decide, C3_insufficient_data rowsW (by decide)⟩

/-! ## C4 -/

/-- C4: resolution first normalizes the input (uppercase, strip / and -),
then tests {X}USDT before {X}BTC against the catalog in that order: if the
USDT pair is present (in particular whenever both are) it is returned; the
BTC pair is returned only when the USDT pair is absent; when neither is
present the result is None. -/
theorem C4_resolution_priority (X : String) (st : NormState) (fr : Option (List String)) :
    (normSym X ++ "USDT" ∈ effectiveCatalog st fr →
      (normalize_symbol X st fr).1 = some (normSym X ++ "USDT")) ∧
    (normSym X ++ "USDT" ∉ effectiveCatalog st fr →
      normSym X ++ "BTC" ∈ effectiveCatalog st fr →
      (normalize_symbol X st fr).1 = some (normSym X ++ "BTC")) ∧
    (normSym X ++ "USDT" ∉ effectiveCatalog st fr →
      normSym X ++ "BTC" ∉ effectiveCatalog st fr →
      (normalize_symbol X st fr).1 = none) := by
  unfold normalize_symbol
  refine ⟨fun h => ?_, fun h1 h2 => ?_, fun h1 h2 => ?_⟩
  · rw [if_pos h]
  · rw [if_neg h1, if_pos h2]
  · rw [if_neg h1, if_neg h2]

/-- C4 witness: with both BTCUSDT and BTCBTC in the memoized catalog the
input btc resolves to BTCUSDT. -/
theorem C4_witness :
    (normalize_symbol "btc" (NormState.mk (some catalogW)) none).1 =
      some (normSym "btc" ++ "USDT") :=
  (C4_resolution_priority "btc" (NormState.mk (some catalogW)) none).1
    (by with_unfolding_all decide)

/-! ## C8 -/

/-- C8: across two consecutive normalize_symbol calls (no refresh path
exists) at most one catalog fetch is issued; the second call always finds
the attribute populated, performs zero fetches and leaves the memoized
state unchanged. -/
theorem C8_memoization (st : NormState) (s1 s2 : String)
    (fr1 fr2 : Option (List String)) :
    (normalize_symbol s1 st fr1).2.2 +
      (normalize_symbol s2 (normalize_symbol s1 st fr1).2.1 fr2).2.2 ≤ 1 ∧
    (normalize_symbol s2 (normalize_symbol s1 st fr1).2.1 fr2).2.2 = 0 ∧
    (normalize_symbol s2 (normalize_symbol s1 st fr1).2.1 fr2).2.1 =
      (normalize_symbol s1 st fr1).2.1 := by
  rw [normalize_symbol_state s1 st fr1]
  refine ⟨?_, ?_, ?_⟩
  · have h1 := normalize_symbol_fetches_le s1 st fr1
    have h2 := normalize_symbol_fetches_cached s2 (effectiveCatalog st fr1) fr2
    omega
  · exact normalize_symbol_fetches_cached s2 (effectiveCatalog st fr1) fr2
  · rw [normalize_symbol_state]
    rfl

/-! ## C10 -/

/-- C10: when the first catalog population fails (the fetch raises, modelled
by fr = none, so get_exchange_info returns the empty set) the empty set is
memoized exactly like a success; afterwards every call, for every input and
whatever a fetch would now return, performs no network fetch, returns None,
and leaves the state fixed at the memoized empty set — so no later call
ever re-fetches. -/
theorem C10_empty_catalog_memoized (s0 s : String) (fr : Option (List String)) :
    (normalize_symbol s0 (NormState.mk none) none).2.1 = NormState.mk (some []) ∧
    normalize_symbol s (NormState.mk (some [])) fr =
      (none, NormState.mk (some []), 0) := by
  constructor
  · rw [normalize_symbol_state]
    rfl
  · rfl

/-! ## Helper lemmas for the indicator engine -/

/-- Rounding an integer is the identity. -/
lemma roundHalfEven_intCast (k : ℤ) : roundHalfEven (k : ℚ) = k := by
  unfold roundHalfEven
  rw [Int.floor_intCast]
  norm_num

/-- py_round is idempotent: a value already rounded to d digits rounds to
itself. -/
lemma py_round_idem (x : ℚ) (d : Nat) : py_round (py_round x d) d = py_round x d := by
  unfold py_round
  have h10 : ((10 : ℚ) ^ d) ≠ 0 := by positivity
  rw [div_mul_cancel₀ _ h10, roundHalfEven_intCast]

lemma py_round_zero (d : Nat) : py_round 0 d = 0 := by
  have h := roundHalfEven_intCast 0
  rw [Int.cast_zero] at h
  unfold py_round
  rw [zero_mul, h]
  norm_num

/-- Inverting the two gates of analyze_technical on a successful run. -/
lemma analyze_technical_some (xs : List Row) (s : Snapshot)
    (hs : analyze_technical xs = some s) :
    50 ≤ (cleanRows xs).length ∧ s = mkSnapshot (cleanRows xs) := by
  unfold analyze_technical at hs
  split_ifs at hs with h1 h2
  exact ⟨by omega, (Option.some.inj hs).symm⟩

/-- The window-period EMA is defined once at least window samples exist. -/
lemma ema_last_isSome (window : Nat) (closes : List ℚ) (hw : 0 < window)
    (h : window ≤ closes.length) : (ema_last window closes).isSome = true := by
  unfold ema_last
  rw [if_neg (by omega)]
  cases closes with
  | nil => simp at h; omega
  | cons x rest => rfl

/-- The MACD line is defined once at least 26 samples exist. -/
lemma macd_last_isSome (closes : List ℚ) (h : 26 ≤ closes.length) :
    (macd_last closes).isSome = true := by
  unfold macd_last
  obtain ⟨f, hf⟩ := Option.isSome_iff_exists.mp
    (ema_last_isSome 12 closes (by omega) (by omega))
  obtain ⟨g, hg⟩ := Option.isSome_iff_exists.mp
    (ema_last_isSome 26 closes (by omega) (by omega))
  rw [hf, hg]
  rfl

/-! ## C5 -/

set_option maxRecDepth 40000 in
/-- C5 counterexample.  The claim says every snapshot has its price rounded
to 2 decimal digits; on 50 rows closing at 1.111 the snapshot's price field
is the raw close 1.111 (line 303 stores price unrounded), which has three
decimal digits. -/
theorem C5_counterexample :
    analyze_technical sample50 = some snap50 ∧
    snap50.price ≠ py_round snap50.price 2 := by
  constructor
  · with_unfolding_all decide
  · with_unfolding_all decide

/-- C5 amended: every snapshot has both EMA fields rounded to 2 decimal
digits, MACD to 4, and both volume-change percentages to 2; the price field
alone is returned unrounded. -/
theorem C5_amended_rounding (xs : List Row) (s : Snapshot)
    (hs : analyze_technical xs = some s) :
    s.ema20 = py_round s.ema20 2 ∧ s.ema50 = py_round s.ema50 2 ∧
    s.macd = py_round s.macd 4 ∧
    s.volume_change_1h = py_round s.volume_change_1h 2 ∧
    s.volume_change_24h = py_round s.volume_change_24h 2 := by
  obtain ⟨h50, rfl⟩ := analyze_technical_some xs s hs
  have hlen : 50 ≤ (closesOf (cleanRows xs)).length := by
    rw [closesOf, List.length_map]
    exact h50
  refine ⟨?_, ?_, ?_, ?_, ?_⟩
  · obtain ⟨v, hv⟩ := Option.isSome_iff_exists.mp
      (ema_last_isSome 20 (closesOf (cleanRows xs)) (by omega) (by omega))
    simp only [mkSnapshot, hv]
    exact (py_round_idem v 2).symm
  · obtain ⟨v, hv⟩ := Option.isSome_iff_exists.mp
      (ema_last_isSome 50 (closesOf (cleanRows xs)) (by omega) (by omega))
    simp only [mkSnapshot, hv]
    exact (py_round_idem v 2).symm
  · obtain ⟨v, hv⟩ := Option.isSome_iff_exists.mp
      (macd_last_isSome (closesOf (cleanRows xs)) (by omega))
    simp only [mkSnapshot, hv]
    exact (py_round_idem v 4).symm
  · simp only [mkSnapshot]
    exact (py_round_idem _ 2).symm
  · simp only [mkSnapshot]
    exact (py_round_idem _ 2).symm

set_option maxRecDepth 40000 in
/-- C5 amended witness at the concrete 50-row input sample50. -/
theorem C5_witness :
    snap50.ema20 = py_round snap50.ema20 2 ∧ snap50.ema50 = py_round snap50.ema50 2 ∧
    snap50.macd = py_round snap50.macd 4 ∧
    snap50.volume_change_1h = py_round snap50.volume_change_1h 2 ∧
    snap50.volume_change_24h = py_round snap50.volume_change_24h 2 :=
  C5_amended_rounding sample50 snap50 (by with_unfolding_all decide)

/-! ## C6 -/

set_option maxRecDepth 40000 in
/-- C6 counterexample.  The claim says ingest also drops duplicate-timestamp
rows, making the computed series strictly increasing with no duplicates.
On 50 valid rows whose first two share timestamp 1, the pipeline computes a
snapshot, yet the series it computed from is neither strictly increasing
nor duplicate-free: nothing in lines 263-276 deduplicates or sorts. -/
theorem C6_counterexample :
    (analyze_technical dupRows50).isSome = true ∧
    ¬ (((cleanRows dupRows50).map Row.timestamp).Pairwise (fun a b => a < b)) ∧
    ¬ ((cleanRows dupRows50).map Row.timestamp).Nodup := by
  refine ⟨?_, ?_, ?_⟩ <;> with_unfolding_all decide

/-- C6 amended: ingest drops exactly the rows whose required numeric fields
fail coercion, keeping every valid row in the input order; duplicate
timestamps are not removed, so the series handed to indicator computation
is strictly increasing by open_time only when the input sequence already
is. -/
theorem C6_amended_ingest (xs : List Row) :
    (∀ r ∈ cleanRows xs, validRow r = true) ∧
    (∀ r ∈ xs, validRow r = true → r ∈ cleanRows xs) ∧
    ((xs.map Row.timestamp).Pairwise (fun a b => a < b) →
      ((cleanRows xs).map Row.timestamp).Pairwise (fun a b => a < b)) := by
  refine ⟨?_, ?_, ?_⟩
  · intro r hr
    exact (List.mem_filter.mp hr).2
  · intro r hr hv
    exact List.mem_filter.mpr ⟨hr, hv⟩
  · intro hp
    exact hp.sublist ((List.filter_sublist xs).map Row.timestamp)

/-- C6 amended witness: on an input already strictly increasing the cleaned
series is strictly increasing. -/
theorem C6_witness :
    ((cleanRows rowsW).map Row.timestamp).Pairwise (fun a b => a < b) :=
  (C6_amended_ingest rowsW).2.2 (by with_unfolding_all decide)

/-! ## C7 -/

/-- C7: on any input passing the sufficiency gate whose second-to-last
surviving volume is 0, the guard on line 293 yields a short-horizon volume
delta of exactly 0 — the division by the prior volume is never taken. -/
theorem C7_zero_prev_volume (xs : List Row) (s : Snapshot)
    (hs : analyze_technical xs = some s)
    (hv : (volumesOf (cleanRows xs)).getD ((volumesOf (cleanRows xs)).length - 2) 0 = 0) :
    s.volume_change_1h = 0 := by
  obtain ⟨h50, rfl⟩ := analyze_technical_some xs s hs
  simp only [mkSnapshot]
  unfold volume_change_1h_of
  rw [hv]
  norm_num [py_round_zero]

set_option maxRecDepth 40000 in
/-- C7 witness: 50 valid rows whose second-to-last volume is 0 produce a
snapshot with volume_change_1h = 0. -/
theorem C7_witness :
    (volumesOf (cleanRows sampleV0)).getD ((volumesOf (cleanRows sampleV0)).length - 2) 0 = 0 ∧
    snapV0.volume_change_1h = 0 :=
  ⟨by with_unfolding_all decide,
   C7_zero_prev_volume sampleV0 snapV0 (by with_unfolding_all decide)
     (by with_unfolding_all decide)⟩

/-! ## C9 -/

/-- C9: when the direct id lookup fails and the search returns a non-empty
candidate list none of whose symbol codes equals the input
case-insensitively, the resolver returns exactly the first
min(5, number of candidates) candidates as suggestions, in the search
API's original order (lines 118-124: coins[:5], never re-sorted). -/
theorem C9_suggestions (input_str : String) (coins : List Coin)
    (hne : coins ≠ [])
    (hnoexact : ∀ c ∈ coins, c.symbol.toUpper ≠ input_str.toUpper) :
    get_coin_id_and_name none (some coins) input_str =
      ResolveResult.notFoundSuggestions
        ((coins.take 5).map (fun c => Coin.mk c.id c.symbol.toUpper c.name)) ∧
    ((coins.take 5).map (fun c => Coin.mk c.id c.symbol.toUpper c.name)).length =
      min 5 coins.length := by
  have hemp : coins.isEmpty = false := by
    cases coins with
    | nil => exact absurd rfl hne
    | cons a l => rfl
  have hfil : coins.filter (fun c => c.symbol.toUpper == input_str.toUpper) = [] := by
    rw [List.filter_eq_nil_iff]
    intro c hc
    simpa using hnoexact c hc
  constructor
  · simp [get_coin_id_and_name, hemp, hfil]
  · simp

/-- C9 witness: a search for bit returning 7 candidates with no exact
symbol match yields exactly the first 5, in order (min 5 7 = 5). -/
theorem C9_witness :
    get_coin_id_and_name none (some coins7) "bit" =
      ResolveResult.notFoundSuggestions
        ((coins7.take 5).map (fun c => Coin.mk c.id c.symbol.toUpper c.name)) ∧
    ((coins7.take 5).map (fun c => Coin.mk c.id c.symbol.toUpper c.name)).length =
      min 5 coins7.length :=
  C9_suggestions "bit" coins7 (by decide) (by with_unfolding_all decide)
